import Mathlib

/-
Verification development for the Ouroboros LLM-client layer
(src/ouroboros/llm.py): provider routing, request building (tool
cache-control), usage normalization, cost reconciliation, usage
accumulation, and the OpenRouter pricing fetch.

Modelling conventions (shallow embedding of the Python source):
* Python strings are modelled as lists of characters (`Str`), so that
  `str.startswith`, `str.replace` and the `in` substring test have
  transparent recursive definitions.
* A Python dict field that may be missing is an `Option`; Python
  truthiness of a numeric field (absent, `None`, or zero are all falsy)
  is the `truthy…` predicates below.
* Python `float` cost/price values are modelled as exact rationals
  (`Rat`); none of the verified properties depends on binary rounding
  of IEEE floats.
* Network effects are modelled by passing the outcome of each HTTP
  request as an explicit argument (`FetchOutcome`, `Except` values);
  a raised-and-caught exception is an explicit constructor, so the
  functions are total — "never raises" is totality of the embedding.
-/

abbrev Str := List Char

/-- Python `s.startswith(pre)`. -/
def pyStartswith (s pre : Str) : Bool :=
  pre.isPrefixOf s

/-- Python `pat in s` (substring containment). -/
def containsSub (s pat : Str) : Bool :=
  match s with
  | [] => pat.isEmpty
  | _ :: rest => pat.isPrefixOf s || containsSub rest pat

/-- Fuel-indexed worker for Python `s.replace(pat, repl)`: replaces all
non-overlapping occurrences of `pat`, scanning left to right.  The fuel
is always instantiated with `s.length`, which suffices because every
step consumes at least one character of `s`. -/
def pyReplaceFuel (pat repl : Str) : Nat → Str → Str
  | _, [] => []
  | 0, s => s
  | fuel + 1, c :: rest =>
    if pat ≠ [] ∧ pat.isPrefixOf (c :: rest) then
      repl ++ pyReplaceFuel pat repl fuel ((c :: rest).drop pat.length)
    else
      c :: pyReplaceFuel pat repl fuel rest

/-- Python `s.replace(pat, repl)` for a non-empty pattern (the only use
in the source has the pattern `"google/"`). -/
def pyReplace (s pat repl : Str) : Str :=
  pyReplaceFuel pat repl s.length s

/-- Process credentials read from the environment at call time
(`os.environ.get(..., "")`). -/
structure Env where
  openai_key : Str
  google_key : Str
  openrouter_key : Str
deriving DecidableEq

/-- The `(base_url, api_key, clean_model_name)` triple returned by
`_detect_provider`. -/
structure Route where
  base_url : Str
  api_key : Str
  clean_model : Str
deriving DecidableEq

def OPENAI_URL : Str := "https://api.openai.com/v1".data

def GOOGLE_URL : Str := "https://generativelanguage.googleapis.com/v1beta/openai/".data

def OPENROUTER_URL : Str := "https://openrouter.ai/api/v1".data

/-- Embeds `_detect_provider` from src/ouroboros/llm.py (lines 21–63): ordered
prefix dispatch, first match wins, with an OpenAI default. -/
def detect_provider (env : Env) (model : Str) : Route :=
  if pyStartswith model "openai/".data then
    ⟨OPENAI_URL, env.openai_key, model.drop 7⟩
  else if pyStartswith model "google/".data || pyStartswith model "gemini".data then
    ⟨GOOGLE_URL, env.google_key, pyReplace model "google/".data []⟩
  else if pyStartswith model "anthropic/".data then
    ⟨OPENROUTER_URL, env.openrouter_key, model⟩
  else if pyStartswith model "x-ai/".data || pyStartswith model "meta-llama/".data
      || pyStartswith model "qwen/".data then
    ⟨OPENROUTER_URL, env.openrouter_key, model⟩
  else
    ⟨OPENAI_URL, env.openai_key, model⟩

/-- Embeds `_is_openrouter`: substring test `"openrouter.ai" in base_url`. -/
def is_openrouter (base_url : Str) : Bool :=
  containsSub base_url "openrouter.ai".data

/-- Embeds `_is_anthropic_model`: `model.startswith("anthropic/")`. -/
def is_anthropic_model (model : Str) : Bool :=
  pyStartswith model "anthropic/".data

example : detect_provider ⟨"A".data, "B".data, "C".data⟩ "openai/gpt-5".data
    = ⟨OPENAI_URL, "A".data, "gpt-5".data⟩ := by decide

example : detect_provider ⟨"A".data, "B".data, "C".data⟩ "gemini-google/x".data
    = ⟨GOOGLE_URL, "B".data, "gemini-x".data⟩ := by decide

example : is_openrouter OPENROUTER_URL = true := by decide

example : is_openrouter OPENAI_URL = false := by decide

/-- Python truthiness of an optional integer field: absent and `0` are
falsy, everything else truthy. -/
def truthyInt : Option Int → Bool
  | none => false
  | some v => v ≠ 0

/-- Python truthiness of an optional float field (modelled as `Rat`). -/
def truthyRat : Option Rat → Bool
  | none => false
  | some v => v ≠ 0

/-- Python `int(x or 0)` on an optional integer field. -/
def orZeroI : Option Int → Int
  | none => 0
  | some v => v

/-- Python `float(x or 0)` on an optional float field. -/
def orZeroRat : Option Rat → Rat
  | none => 0
  | some v => v

/-- Python `a or b` on optional numeric values: the first operand when
truthy, otherwise the second operand as is. -/
def pyOrInt (a b : Option Int) : Option Int :=
  if truthyInt a then a else b

/-- The nested `prompt_tokens_details` dict of a chat response. -/
structure PromptDetails where
  cached_tokens : Option Int
  cache_write_tokens : Option Int
  cache_creation_tokens : Option Int
  cache_creation_input_tokens : Option Int
deriving DecidableEq

/-- A usage dict: the five integer counters, the optional cost, and the
optional nested detail structure.  A key a provider omitted is `none`.
`add_usage` reads only the six flat fields; the details field rides
along untouched (a Python dict keeps keys the loop does not write). -/
structure Usage where
  prompt_tokens : Option Int
  completion_tokens : Option Int
  total_tokens : Option Int
  cached_tokens : Option Int
  cache_write_tokens : Option Int
  cost : Option Rat
  prompt_tokens_details : Option PromptDetails
deriving DecidableEq

/-- The empty dict `{}`. -/
def emptyUsage : Usage :=
  ⟨none, none, none, none, none, none, none⟩

/-- Python `usage.get("prompt_tokens_details") or {}` — an absent (or falsy)
details dict becomes the empty one. -/
def detailsOrEmpty : Option PromptDetails → PromptDetails
  | none => ⟨none, none, none, none⟩
  | some d => d

/-- llm.py lines 266–270: promote `prompt_tokens_details.cached_tokens`
to the top level when the top-level counter is falsy. -/
def promoteCachedTokens (usage : Usage) : Usage :=
  if truthyInt usage.cached_tokens then usage
  else
    let d := detailsOrEmpty usage.prompt_tokens_details
    if truthyInt d.cached_tokens then { usage with cached_tokens := d.cached_tokens }
    else usage

/-- llm.py lines 272–280: promote the first truthy value of
`cache_write_tokens` / `cache_creation_tokens` /
`cache_creation_input_tokens` from the detail structure when the
top-level `cache_write_tokens` is falsy (the Python `or`-chain skips
falsy values, and the final `if cache_write:` guard rejects a falsy
result). -/
def promoteCacheWriteTokens (usage : Usage) : Usage :=
  if truthyInt usage.cache_write_tokens then usage
  else
    let d := detailsOrEmpty usage.prompt_tokens_details
    let cache_write :=
      pyOrInt d.cache_write_tokens
        (pyOrInt d.cache_creation_tokens d.cache_creation_input_tokens)
    if truthyInt cache_write then { usage with cache_write_tokens := cache_write }
    else usage

/-- Parsed body of one `GET …/generation?id=…` response:
`data.total_cost` and `data.usage.cost`.  A missing or falsy `data`
object is the pair of `none`s. -/
structure GenData where
  total_cost : Option Rat
  usage_cost : Option Rat
deriving DecidableEq

/-- Python `data.get("total_cost") or data.get("usage", {}).get("cost")`
followed by the `is not None` test in the caller: first truthy operand,
else the second operand as is (which may be a present zero). -/
def extractCost (d : GenData) : Option Rat :=
  if truthyRat d.total_cost then d.total_cost else d.usage_cost

/-- Outcome of one HTTP request in `_fetch_generation_cost`:
the call raised (connection error / timeout), or it returned a status
code together with the JSON-parse outcome of the body (`none` when
`resp.json()` raises on a malformed body). -/
inductive FetchOutcome where
  | raised : FetchOutcome
  | resp (status : Nat) (body : Option GenData) : FetchOutcome
deriving DecidableEq

/-- Observable events of `_fetch_generation_cost`: an HTTP lookup
attempt, or a blocking sleep of the given number of milliseconds. -/
inductive Ev where
  | req : Ev
  | sleep (ms : Nat) : Ev
deriving DecidableEq

/-- The usable cost an attempt yields: only a 200 response whose body
parses and whose data carries a non-`None` cost value. -/
def usableCost : FetchOutcome → Option Rat
  | .raised => none
  | .resp status body =>
    if status = 200 then
      match body with
      | some d => extractCost d
      | none => none
    else none

/-- Second lookup attempt of `_fetch_generation_cost` (after
`time.sleep(0.5)`); every failure path falls through to `return None`
or is caught by the enclosing `except`. -/
def fetchSecondAttempt (r2 : FetchOutcome) : Option Rat × List Ev :=
  let tr : List Ev := [.req, .sleep 500, .req]
  match r2 with
  | .raised => (none, tr)
  | .resp status body =>
    if status = 200 then
      match body with
      | some d =>
        match extractCost d with
        | some c => (some c, tr)
        | none => (none, tr)
      | none => (none, tr)
    else (none, tr)

/-- Embeds `LLMClient._fetch_generation_cost` (llm.py lines 188–211).  The two
potential HTTP outcomes are passed explicitly; the returned trace lists
the attempts made and the sleep separating them.  Every exception is
caught inside the function, so the embedding is total and the result is
`none` on all failure paths. -/
def fetch_generation_cost (base_url : Str) (r1 r2 : FetchOutcome) :
    Option Rat × List Ev :=
  if ¬ is_openrouter base_url then (none, [])
  else
    match r1 with
    | .raised => (none, [.req])
    | .resp status body =>
      if status = 200 then
        match body with
        | some d =>
          match extractCost d with
          | some c => (some c, [.req])
          | none => fetchSecondAttempt r2
        | none => (none, [.req])
      else fetchSecondAttempt r2

/-- Python `resp_dict.get("usage") or {}` — a missing (or falsy) usage dict
becomes the empty one. -/
def usageOrEmpty : Option Usage → Usage
  | none => emptyUsage
  | some u => u

/-- Usage post-processing of `LLMClient.chat` (llm.py lines 262–290):
`resp_dict.get("usage") or {}`, the two detail promotions, then the
conditional cost reconciliation.  `gen_id` is `resp_dict.get("id") or ""`;
the second component records whether `_fetch_generation_cost` was
invoked. -/
def chat_usage (base_url : Str) (gen_id : Str) (r1 r2 : FetchOutcome)
    (raw_usage : Option Usage) : Usage × Bool :=
  let usage0 := usageOrEmpty raw_usage
  let usage1 := promoteCachedTokens usage0
  let usage2 := promoteCacheWriteTokens usage1
  if ¬ truthyRat usage2.cost ∧ is_openrouter base_url then
    if gen_id ≠ [] then
      match (fetch_generation_cost base_url r1 r2).1 with
      | some c => ({ usage2 with cost := some c }, true)
      | none => (usage2, true)
    else (usage2, false)
  else (usage2, false)

/-- The cache-control marker dict
`\x7b"type": "ephemeral", "ttl": "1h"\x7d`. -/
structure CacheControl where
  type : Str
  ttl : Str
deriving DecidableEq

/-- A tool-definition dict: the keys other than `cache_control` are kept
opaque in `body`; `cache_control` is the key the request builder may
set. -/
structure Tool where
  body : Str
  cache_control : Option CacheControl
deriving DecidableEq

def ephemeralMarker : CacheControl :=
  ⟨"ephemeral".data, "1h".data⟩

/-- llm.py lines 250–254: shallow-copy the tool list, copy the last tool
and set its `cache_control` key, then replace the last element of the
copy.  The input list itself is never written (copy-on-write). -/
def tools_with_cache (tools : List Tool) : List Tool :=
  if h : tools = [] then tools
  else
    tools.dropLast ++ [{ tools.getLast h with cache_control := some ephemeralMarker }]

/-- The `tools` entry of the request payload built by `LLMClient.chat`
(llm.py lines 247–258): `none` when the `if tools:` guard fails (absent
or empty list), the cache-marked copy on the aggregator+Anthropic path,
the caller's list unchanged otherwise. -/
def chatToolsPayload (base_url : Str) (model : Str) (tools : Option (List Tool)) :
    Option (List Tool) :=
  match tools with
  | none => none
  | some ts =>
    if ts = [] then none
    else if is_openrouter base_url && is_anthropic_model model then
      some (tools_with_cache ts)
    else some ts

/-- Embeds `add_usage` (llm.py lines 87–92): field-wise accumulation of one
usage dict into a running total.  Each of the five integer counters is
written back as `int(total.get(k) or 0) + int(usage.get(k) or 0)`; the
cost is added only when `usage.get("cost")` is truthy. -/
def add_usage (total usage : Usage) : Usage :=
  { prompt_tokens := some (orZeroI total.prompt_tokens + orZeroI usage.prompt_tokens)
    completion_tokens :=
      some (orZeroI total.completion_tokens + orZeroI usage.completion_tokens)
    total_tokens := some (orZeroI total.total_tokens + orZeroI usage.total_tokens)
    cached_tokens := some (orZeroI total.cached_tokens + orZeroI usage.cached_tokens)
    cache_write_tokens :=
      some (orZeroI total.cache_write_tokens + orZeroI usage.cache_write_tokens)
    cost :=
      match usage.cost with
      | some c => if c ≠ 0 then some (orZeroRat total.cost + c) else total.cost
      | none => total.cost
    prompt_tokens_details := total.prompt_tokens_details }

/-- The `pricing` sub-dict of one catalog entry; raw per-token prices in
currency units.  OpenRouter serialises these as decimal strings; they
are modelled as the rationals they denote, with a missing or falsy
value as `none`/zero. -/
structure RawPricing where
  prompt : Option Rat
  completion : Option Rat
  input_cache_read : Option Rat
deriving DecidableEq

/-- One entry of the `GET …/models` catalog: `model.get("id", "")` and
`model.get("pricing", {})` (a missing or empty pricing dict is `none`). -/
structure RawModel where
  id : Str
  pricing : Option RawPricing
deriving DecidableEq

/-- The vendor namespaces the pricing fetch keeps
(`model_id.startswith(prefixes)` over the tuple in llm.py line 122). -/
def pricedNamespaces : List Str :=
  ["anthropic/".data, "openai/".data, "google/".data,
   "meta-llama/".data, "x-ai/".data, "qwen/".data]

/-- Python `s.startswith(tuple)`. -/
def startsWithAny (s : Str) (ps : List Str) : Bool :=
  ps.any fun p => p.isPrefixOf s

/-- Round-half-to-even on a rational, the rounding Python's built-in
`round` uses at ties. -/
def roundHalfEven (y : Rat) : Int :=
  let f := ⌊y⌋
  if y - f < 1 / 2 then f
  else if y - f > 1 / 2 then f + 1
  else if f % 2 = 0 then f else f + 1

/-- Python `round(x, 4)`: round to four decimal places. -/
def pyRound4 (x : Rat) : Rat :=
  (roundHalfEven (x * 10000) : Rat) / 10000

/-- Python dict insertion `d[k] = v` on an association list: replace the
value of an existing key in place, append a fresh key at the end. -/
def pyDictInsert {α : Type} (d : List (Str × α)) (k : Str) (v : α) :
    List (Str × α) :=
  match d with
  | [] => [(k, v)]
  | (k0, v0) :: rest =>
    if k0 = k then (k, v) :: rest else (k0, v0) :: pyDictInsert rest k v

/-- The per-million prompt price the fetch derives from one pricing
dict: `round(float(pricing.get("prompt", 0)) * 1_000_000, 4)`. -/
def derivedPromptPrice (p : RawPricing) : Rat :=
  pyRound4 (orZeroRat p.prompt * 1000000)

/-- The per-million completion price the fetch derives from one pricing
dict. -/
def derivedCompletionPrice (p : RawPricing) : Rat :=
  pyRound4 (orZeroRat p.completion * 1000000)

/-- The per-million cached-read price: the explicit `input_cache_read`
value when truthy, otherwise 10% of the (already rounded) prompt price,
re-rounded. -/
def derivedCachedPrice (p : RawPricing) : Rat :=
  if truthyRat p.input_cache_read then
    pyRound4 (orZeroRat p.input_cache_read * 1000000)
  else
    pyRound4 (derivedPromptPrice p * (1 / 10))

/-- The loop body of `fetch_openrouter_pricing` (llm.py lines 125–153):
skip entries outside the kept namespaces, entries without a truthy
prompt price, and entries whose derived prompt or completion price
exceeds 1000; store the accepted triple under the model id. -/
def pricingStep (acc : List (Str × (Rat × Rat × Rat))) (model : RawModel) :
    List (Str × (Rat × Rat × Rat)) :=
  if ¬ startsWithAny model.id pricedNamespaces then acc
  else
    match model.pricing with
    | none => acc
    | some pricing =>
      if ¬ truthyRat pricing.prompt then acc
      else
        let prompt_price := derivedPromptPrice pricing
        let completion_price := derivedCompletionPrice pricing
        let cached_price := derivedCachedPrice pricing
        if prompt_price > 1000 ∨ completion_price > 1000 then acc
        else pyDictInsert acc model.id (prompt_price, cached_price, completion_price)

/-- Embeds `fetch_openrouter_pricing` (llm.py lines 95–160).  The credential is
the value of `OPENROUTER_API_KEY` (empty when unset), `requestsOk`
whether `import requests` succeeds, and `resp` the outcome of the HTTP
request plus JSON parse (`.error` for any raise inside the `try`, which
the function catches and converts to the empty mapping). -/
def fetch_openrouter_pricing (api_key : Str) (requestsOk : Bool)
    (resp : Except Unit (List RawModel)) : List (Str × (Rat × Rat × Rat)) :=
  if api_key = [] then []
  else if ¬ requestsOk then []
  else
    match resp with
    | .error _ => []
    | .ok models => models.foldl pricingStep []


/-! ### Helper lemmas -/

theorem isPrefixOf_append_self : ∀ (l t : Str), l.isPrefixOf (l ++ t) = true
  | [], t => by cases t <;> rfl
  | c :: cs, t => by simp [List.isPrefixOf, isPrefixOf_append_self cs t]

theorem isPrefixOf_ne_head (a b : Char) (as bs : Str) (h : (a == b) = false) :
    (a :: as).isPrefixOf (b :: bs) = false := by
  simp [List.isPrefixOf]
  intro hab
  simp [hab] at h

theorem isPrefixOf_cons_cons (a b : Char) (as bs : Str) :
    (a :: as).isPrefixOf (b :: bs) = ((a == b) && as.isPrefixOf bs) := rfl

theorem pyReplaceFuel_nil (pat repl : Str) (fuel : Nat) :
    pyReplaceFuel pat repl fuel [] = [] := by
  cases fuel <;> rfl

theorem pyReplaceFuel_succ_cons (pat repl : Str) (fuel : Nat) (c : Char) (rest : Str) :
    pyReplaceFuel pat repl (fuel + 1) (c :: rest) =
      if pat ≠ [] ∧ pat.isPrefixOf (c :: rest) then
        repl ++ pyReplaceFuel pat repl fuel ((c :: rest).drop pat.length)
      else c :: pyReplaceFuel pat repl fuel rest := rfl

theorem pyReplaceFuel_of_not_contains (pat repl : Str) :
    ∀ (fuel : Nat) (s : Str), containsSub s pat = false →
      pyReplaceFuel pat repl fuel s = s := by
  intro fuel
  induction fuel with
  | zero =>
    intro s _
    cases s <;> rfl
  | succ n ih =>
    intro s hs
    cases s with
    | nil => rfl
    | cons c rest =>
      have hsplit : pat.isPrefixOf (c :: rest) = false ∧ containsSub rest pat = false := by
        simpa [containsSub] using hs
      rw [pyReplaceFuel_succ_cons]
      rw [if_neg (by simp [hsplit.1]), ih rest hsplit.2]

theorem pyReplace_of_not_contains (s pat repl : Str) (h : containsSub s pat = false) :
    pyReplace s pat repl = s :=
  pyReplaceFuel_of_not_contains pat repl s.length s h

theorem pyReplace_strip_head (pat repl rest : Str) (hp : pat ≠ [])
    (hnc : containsSub rest pat = false) :
    pyReplace (pat ++ rest) pat repl = repl ++ rest := by
  cases pat with
  | nil => exact absurd rfl hp
  | cons p pt =>
    show pyReplaceFuel (p :: pt) repl ((p :: pt) ++ rest).length ((p :: pt) ++ rest)
      = repl ++ rest
    have hlen : ((p :: pt) ++ rest).length = (pt ++ rest).length + 1 := by simp
    rw [hlen]
    rw [show (p :: pt) ++ rest = p :: (pt ++ rest) from rfl]
    rw [pyReplaceFuel_succ_cons]
    rw [if_pos ⟨by simp, isPrefixOf_append_self (p :: pt) rest⟩]
    have hdrop : (p :: (pt ++ rest)).drop (p :: pt).length = rest :=
      List.drop_left (p :: pt) rest
    rw [hdrop, pyReplaceFuel_of_not_contains (p :: pt) repl _ rest hnc]

theorem pyDictInsert_nil {α : Type} (k : Str) (v : α) :
    pyDictInsert [] k v = [(k, v)] := rfl

theorem pyDictInsert_cons {α : Type} (k0 : Str) (v0 : α) (rest : List (Str × α))
    (k : Str) (v : α) :
    pyDictInsert ((k0, v0) :: rest) k v =
      if k0 = k then (k, v) :: rest else (k0, v0) :: pyDictInsert rest k v := rfl

theorem mem_keys_pyDictInsert {α : Type} (d : List (Str × α)) (k : Str) (v : α)
    (j : Str) :
    j ∈ (pyDictInsert d k v).map Prod.fst ↔ j = k ∨ j ∈ d.map Prod.fst := by
  induction d with
  | nil => simp [pyDictInsert_nil]
  | cons e rest ih =>
    obtain ⟨k0, v0⟩ := e
    rw [pyDictInsert_cons]
    by_cases hk : k0 = k
    · subst hk
      rw [if_pos rfl]
      simp only [List.map_cons, List.mem_cons]
      tauto
    · rw [if_neg hk]
      simp only [List.map_cons, List.mem_cons, ih]
      tauto

/-! ### C8 — accumulation is associative -/

/-- C8: usage accumulation is associative: for any records and any
starting total, grouping does not change any of the five integer
counters (`add_usage` is associative on them, and accumulating two
batches one after the other equals one pass over their concatenation);
an absent cost contributes zero (it leaves the total's cost untouched)
and accumulating never clears a previously accumulated cost. -/
theorem C8_add_usage_associative (a b c t u : Usage) (l₁ l₂ : List Usage) :
    ((add_usage (add_usage a b) c).prompt_tokens
        = (add_usage a (add_usage b c)).prompt_tokens
      ∧ (add_usage (add_usage a b) c).completion_tokens
        = (add_usage a (add_usage b c)).completion_tokens
      ∧ (add_usage (add_usage a b) c).total_tokens
        = (add_usage a (add_usage b c)).total_tokens
      ∧ (add_usage (add_usage a b) c).cached_tokens
        = (add_usage a (add_usage b c)).cached_tokens
      ∧ (add_usage (add_usage a b) c).cache_write_tokens
        = (add_usage a (add_usage b c)).cache_write_tokens)
    ∧ (l₁ ++ l₂).foldl add_usage t = l₂.foldl add_usage (l₁.foldl add_usage t)
    ∧ (u.cost = none → (add_usage t u).cost = t.cost)
    ∧ (∀ x : Rat, t.cost = some x → ∃ y : Rat, (add_usage t u).cost = some y) := by
  refine ⟨⟨?_, ?_, ?_, ?_, ?_⟩, ?_, ?_, ?_⟩
  · simp [add_usage, orZeroI, Int.add_assoc]
  · simp [add_usage, orZeroI, Int.add_assoc]
  · simp [add_usage, orZeroI, Int.add_assoc]
  · simp [add_usage, orZeroI, Int.add_assoc]
  · simp [add_usage, orZeroI, Int.add_assoc]
  · exact List.foldl_append ..
  · intro h
    simp [add_usage, h]
  · intro x hx
    cases hu : u.cost with
    | none => exact ⟨x, by simp [add_usage, hu, hx]⟩
    | some cu =>
      by_cases hz : cu = 0
      · exact ⟨x, by simp [add_usage, hu, hz, hx]⟩
      · exact ⟨orZeroRat t.cost + cu, by simp [add_usage, hu, hz]⟩

/-! ### C10 — a present zero cost behaves like an absent cost -/

/-- C10: accumulating a record whose cost field is present but zero adds
the integer counters exactly as if the cost were absent and leaves the
total's cost untouched — in particular it creates no cost field in a
total that had none. -/
theorem C10_zero_cost_like_absent (t u : Usage) (h : u.cost = some 0) :
    add_usage t u = add_usage t { u with cost := none }
    ∧ (add_usage t u).cost = t.cost
    ∧ (t.cost = none → (add_usage t u).cost = none) := by
  refine ⟨?_, ?_, ?_⟩
  · simp [add_usage, h]
  · simp [add_usage, h]
  · intro ht
    simp [add_usage, h, ht]

/-- Witness for C10 at a concrete input: a record with counters
`1,2,3,4,5` and a present zero cost, accumulated into a fresh total. -/
theorem C10_witness :
    add_usage emptyUsage ⟨some 1, some 2, some 3, some 4, some 5, some 0, none⟩
      = add_usage emptyUsage
          { (⟨some 1, some 2, some 3, some 4, some 5, some 0, none⟩ : Usage) with
            cost := none }
    ∧ (add_usage emptyUsage
        ⟨some 1, some 2, some 3, some 4, some 5, some 0, none⟩).cost = emptyUsage.cost
    ∧ (emptyUsage.cost = none →
        (add_usage emptyUsage
          ⟨some 1, some 2, some 3, some 4, some 5, some 0, none⟩).cost = none) :=
  C10_zero_cost_like_absent emptyUsage
    ⟨some 1, some 2, some 3, some 4, some 5, some 0, none⟩ rfl

/-! ### C7 — routing is total, with documented routes and fallback -/

/-- C7: provider routing is total (the Lean embedding is a total
function, mirroring the catch-all `else`), and every recognized prefix
maps to its documented endpoint/credential pair: `"openai/gpt-5"`
routes direct with canonical name `"gpt-5"` (rule 1, proven for every
suffix); every `"google/…"` or `"gemini…"` identifier routes to the
Google endpoint with the secondary-vendor credential, the canonical
name being the leading-prefix strip (resp. the unchanged name) whenever
`"google/"` occurs nowhere further (rule 2); `"anthropic/claude-3.7"`
and every `"anthropic/…"`, `"x-ai/…"`, `"meta-llama/…"`, `"qwen/…"`
identifier routes to the aggregator with the aggregator credential and
the name unchanged (rules 3 and 4); and every identifier matching none
of the recognized prefixes falls back to the direct OpenAI route with
the name unchanged (rule 5). -/
theorem C7_routing_total (env : Env) :
    detect_provider env "openai/gpt-5".data
      = ⟨OPENAI_URL, env.openai_key, "gpt-5".data⟩
    ∧ detect_provider env "anthropic/claude-3.7".data
      = ⟨OPENROUTER_URL, env.openrouter_key, "anthropic/claude-3.7".data⟩
    ∧ (∀ t : Str, detect_provider env ("openai/".data ++ t)
        = ⟨OPENAI_URL, env.openai_key, t⟩)
    ∧ (∀ t : Str, (detect_provider env ("google/".data ++ t)).base_url = GOOGLE_URL
        ∧ (detect_provider env ("google/".data ++ t)).api_key = env.google_key
        ∧ (containsSub t "google/".data = false →
            (detect_provider env ("google/".data ++ t)).clean_model = t))
    ∧ (∀ t : Str, (detect_provider env ("gemini".data ++ t)).base_url = GOOGLE_URL
        ∧ (detect_provider env ("gemini".data ++ t)).api_key = env.google_key
        ∧ (containsSub ("gemini".data ++ t) "google/".data = false →
            (detect_provider env ("gemini".data ++ t)).clean_model
              = "gemini".data ++ t))
    ∧ (∀ t : Str, detect_provider env ("anthropic/".data ++ t)
        = ⟨OPENROUTER_URL, env.openrouter_key, "anthropic/".data ++ t⟩)
    ∧ (∀ t : Str, detect_provider env ("x-ai/".data ++ t)
        = ⟨OPENROUTER_URL, env.openrouter_key, "x-ai/".data ++ t⟩)
    ∧ (∀ t : Str, detect_provider env ("meta-llama/".data ++ t)
        = ⟨OPENROUTER_URL, env.openrouter_key, "meta-llama/".data ++ t⟩)
    ∧ (∀ t : Str, detect_provider env ("qwen/".data ++ t)
        = ⟨OPENROUTER_URL, env.openrouter_key, "qwen/".data ++ t⟩)
    ∧ (∀ m : Str, pyStartswith m "openai/".data = false →
        pyStartswith m "google/".data = false →
        pyStartswith m "gemini".data = false →
        pyStartswith m "anthropic/".data = false →
        pyStartswith m "x-ai/".data = false →
        pyStartswith m "meta-llama/".data = false →
        pyStartswith m "qwen/".data = false →
        detect_provider env m = ⟨OPENAI_URL, env.openai_key, m⟩) := by
  refine ⟨rfl, rfl, ?_, ?_, ?_, ?_, ?_, ?_, ?_, ?_⟩
  · intro t
    have h1 : pyStartswith ("openai/".data ++ t) "openai/".data = true :=
      isPrefixOf_append_self "openai/".data t
    have h2 : ("openai/".data ++ t).drop 7 = t := List.drop_left "openai/".data t
    unfold detect_provider
    rw [if_pos h1, h2]
  · intro t
    have h1 : pyStartswith ("google/".data ++ t) "openai/".data = false :=
      isPrefixOf_ne_head 'o' 'g' "penai/".data ("oogle/".data ++ t) (by decide)
    have h2 : pyStartswith ("google/".data ++ t) "google/".data = true :=
      isPrefixOf_append_self "google/".data t
    unfold detect_provider
    rw [if_neg (by rw [h1]; exact Bool.false_ne_true), if_pos (by rw [h2]; simp)]
    refine ⟨rfl, rfl, fun hnc => ?_⟩
    exact pyReplace_strip_head "google/".data [] t (by decide) hnc
  · intro t
    have h1 : pyStartswith ("gemini".data ++ t) "openai/".data = false :=
      isPrefixOf_ne_head 'o' 'g' "penai/".data ("emini".data ++ t) (by decide)
    have h2 : pyStartswith ("gemini".data ++ t) "google/".data = false := by
      have hsub : ("oogle/".data).isPrefixOf ("emini".data ++ t) = false :=
        isPrefixOf_ne_head 'o' 'e' "ogle/".data ("mini".data ++ t) (by decide)
      show ('g' :: "oogle/".data).isPrefixOf ('g' :: ("emini".data ++ t)) = false
      rw [isPrefixOf_cons_cons, hsub]
      exact Bool.and_false _
    have h3 : pyStartswith ("gemini".data ++ t) "gemini".data = true :=
      isPrefixOf_append_self "gemini".data t
    unfold detect_provider
    rw [if_neg (by rw [h1]; exact Bool.false_ne_true),
      if_pos (by rw [h2, h3]; simp)]
    exact ⟨rfl, rfl, fun hnc => pyReplace_of_not_contains _ _ _ hnc⟩
  · intro t
    have h1 : pyStartswith ("anthropic/".data ++ t) "openai/".data = false :=
      isPrefixOf_ne_head 'o' 'a' "penai/".data ("nthropic/".data ++ t) (by decide)
    have h2 : pyStartswith ("anthropic/".data ++ t) "google/".data = false :=
      isPrefixOf_ne_head 'g' 'a' "oogle/".data ("nthropic/".data ++ t) (by decide)
    have h3 : pyStartswith ("anthropic/".data ++ t) "gemini".data = false :=
      isPrefixOf_ne_head 'g' 'a' "emini".data ("nthropic/".data ++ t) (by decide)
    have h4 : pyStartswith ("anthropic/".data ++ t) "anthropic/".data = true :=
      isPrefixOf_append_self "anthropic/".data t
    unfold detect_provider
    rw [if_neg (by rw [h1]; exact Bool.false_ne_true),
      if_neg (by rw [h2, h3]; exact Bool.false_ne_true),
      if_pos h4]
  · intro t
    have h1 : pyStartswith ("x-ai/".data ++ t) "openai/".data = false :=
      isPrefixOf_ne_head 'o' 'x' "penai/".data ("-ai/".data ++ t) (by decide)
    have h2 : pyStartswith ("x-ai/".data ++ t) "google/".data = false :=
      isPrefixOf_ne_head 'g' 'x' "oogle/".data ("-ai/".data ++ t) (by decide)
    have h3 : pyStartswith ("x-ai/".data ++ t) "gemini".data = false :=
      isPrefixOf_ne_head 'g' 'x' "emini".data ("-ai/".data ++ t) (by decide)
    have h4 : pyStartswith ("x-ai/".data ++ t) "anthropic/".data = false :=
      isPrefixOf_ne_head 'a' 'x' "nthropic/".data ("-ai/".data ++ t) (by decide)
    have h5 : pyStartswith ("x-ai/".data ++ t) "x-ai/".data = true :=
      isPrefixOf_append_self "x-ai/".data t
    unfold detect_provider
    rw [if_neg (by rw [h1]; exact Bool.false_ne_true),
      if_neg (by rw [h2, h3]; exact Bool.false_ne_true),
      if_neg (by rw [h4]; exact Bool.false_ne_true),
      if_pos (by rw [h5]; simp)]
  · intro t
    have h1 : pyStartswith ("meta-llama/".data ++ t) "openai/".data = false :=
      isPrefixOf_ne_head 'o' 'm' "penai/".data ("eta-llama/".data ++ t) (by decide)
    have h2 : pyStartswith ("meta-llama/".data ++ t) "google/".data = false :=
      isPrefixOf_ne_head 'g' 'm' "oogle/".data ("eta-llama/".data ++ t) (by decide)
    have h3 : pyStartswith ("meta-llama/".data ++ t) "gemini".data = false :=
      isPrefixOf_ne_head 'g' 'm' "emini".data ("eta-llama/".data ++ t) (by decide)
    have h4 : pyStartswith ("meta-llama/".data ++ t) "anthropic/".data = false :=
      isPrefixOf_ne_head 'a' 'm' "nthropic/".data ("eta-llama/".data ++ t) (by decide)
    have h5 : pyStartswith ("meta-llama/".data ++ t) "x-ai/".data = false :=
      isPrefixOf_ne_head 'x' 'm' "-ai/".data ("eta-llama/".data ++ t) (by decide)
    have h6 : pyStartswith ("meta-llama/".data ++ t) "meta-llama/".data = true :=
      isPrefixOf_append_self "meta-llama/".data t
    unfold detect_provider
    rw [if_neg (by rw [h1]; exact Bool.false_ne_true),
      if_neg (by rw [h2, h3]; exact Bool.false_ne_true),
      if_neg (by rw [h4]; exact Bool.false_ne_true),
      if_pos (by rw [h5, h6]; simp)]
  · intro t
    have h1 : pyStartswith ("qwen/".data ++ t) "openai/".data = false :=
      isPrefixOf_ne_head 'o' 'q' "penai/".data ("wen/".data ++ t) (by decide)
    have h2 : pyStartswith ("qwen/".data ++ t) "google/".data = false :=
      isPrefixOf_ne_head 'g' 'q' "oogle/".data ("wen/".data ++ t) (by decide)
    have h3 : pyStartswith ("qwen/".data ++ t) "gemini".data = false :=
      isPrefixOf_ne_head 'g' 'q' "emini".data ("wen/".data ++ t) (by decide)
    have h4 : pyStartswith ("qwen/".data ++ t) "anthropic/".data = false :=
      isPrefixOf_ne_head 'a' 'q' "nthropic/".data ("wen/".data ++ t) (by decide)
    have h5 : pyStartswith ("qwen/".data ++ t) "x-ai/".data = false :=
      isPrefixOf_ne_head 'x' 'q' "-ai/".data ("wen/".data ++ t) (by decide)
    have h6 : pyStartswith ("qwen/".data ++ t) "meta-llama/".data = false :=
      isPrefixOf_ne_head 'm' 'q' "eta-llama/".data ("wen/".data ++ t) (by decide)
    have h7 : pyStartswith ("qwen/".data ++ t) "qwen/".data = true :=
      isPrefixOf_append_self "qwen/".data t
    unfold detect_provider
    rw [if_neg (by rw [h1]; exact Bool.false_ne_true),
      if_neg (by rw [h2, h3]; exact Bool.false_ne_true),
      if_neg (by rw [h4]; exact Bool.false_ne_true),
      if_pos (by rw [h5, h6, h7]; simp)]
  · intro m h1 h2 h3 h4 h5 h6 h7
    unfold detect_provider
    rw [if_neg (by rw [h1]; exact Bool.false_ne_true),
      if_neg (by rw [h2, h3]; exact Bool.false_ne_true),
      if_neg (by rw [h4]; exact Bool.false_ne_true),
      if_neg (by rw [h5, h6, h7]; exact Bool.false_ne_true)]

/-! ### C5 — the google/gemini routing rule -/

/-- C5 counterexample: `"gemini-google/x"` is matched by routing rule 2
(it begins with `"gemini"`) and carries no leading `"google/"` prefix,
so the claim says its canonical name is unchanged; the code's
`model.replace("google/", "")` removes the inner occurrence and yields
`"gemini-x"`. -/
theorem C5_counterexample :
    (detect_provider ⟨"ok".data, "gk".data, "rk".data⟩ "gemini-google/x".data).clean_model
      = "gemini-x".data
    ∧ pyStartswith "gemini-google/x".data "gemini".data = true
    ∧ pyStartswith "gemini-google/x".data "google/".data = false
    ∧ "gemini-x".data ≠ "gemini-google/x".data := by decide

/-- C5 (amended): every identifier matched by rule 2 routes to the
Google endpoint with the secondary-vendor credential, and its canonical
name is the identifier with every occurrence of the substring
`"google/"` removed — which coincides with the claimed behaviour
(leading prefix stripped if present, otherwise unchanged) whenever
`"google/"` occurs nowhere past the leading prefix. -/
theorem C5_google_rule (env : Env) (m : Str)
    (h1 : pyStartswith m "openai/".data = false)
    (h2 : pyStartswith m "google/".data = true ∨ pyStartswith m "gemini".data = true) :
    detect_provider env m = ⟨GOOGLE_URL, env.google_key, pyReplace m "google/".data []⟩
    ∧ (∀ rest : Str, m = "google/".data ++ rest →
        containsSub rest "google/".data = false →
        pyReplace m "google/".data [] = rest)
    ∧ (containsSub m "google/".data = false → pyReplace m "google/".data [] = m) := by
  refine ⟨?_, ?_, ?_⟩
  · rcases h2 with h2 | h2 <;> simp [detect_provider, h1, h2]
  · intro rest hm hnc
    subst hm
    exact pyReplace_strip_head "google/".data [] rest (by decide) hnc
  · intro hnc
    exact pyReplace_of_not_contains m "google/".data [] hnc

/-- Witness for C5 at concrete inputs: `"google/gemini-2.5-pro"`
(prefix stripped) under rule 2. -/
theorem C5_witness :
    detect_provider ⟨"ok".data, "gk".data, "rk".data⟩ "google/gemini-2.5-pro".data
      = ⟨GOOGLE_URL, "gk".data,
          pyReplace "google/gemini-2.5-pro".data "google/".data []⟩
    ∧ (∀ rest : Str, "google/gemini-2.5-pro".data = "google/".data ++ rest →
        containsSub rest "google/".data = false →
        pyReplace "google/gemini-2.5-pro".data "google/".data [] = rest)
    ∧ (containsSub "google/gemini-2.5-pro".data "google/".data = false →
        pyReplace "google/gemini-2.5-pro".data "google/".data []
          = "google/gemini-2.5-pro".data) :=
  C5_google_rule ⟨"ok".data, "gk".data, "rk".data⟩ "google/gemini-2.5-pro".data
    (by decide) (Or.inl (by decide))

/-! ### C2 — bounded, silent cost reconciliation -/

theorem fetchSecondAttempt_trace (r2 : FetchOutcome) :
    (fetchSecondAttempt r2).2 = [Ev.req, Ev.sleep 500, Ev.req] := by
  cases r2 with
  | raised => rfl
  | resp s b =>
    by_cases hs : s = 200
    · cases b with
      | none => simp [fetchSecondAttempt, hs]
      | some d => cases hec : extractCost d <;> simp [fetchSecondAttempt, hs, hec]
    · simp [fetchSecondAttempt, hs]

theorem fetchSecondAttempt_fail (r2 : FetchOutcome) (h : usableCost r2 = none) :
    (fetchSecondAttempt r2).1 = none := by
  cases r2 with
  | raised => rfl
  | resp s b =>
    by_cases hs : s = 200
    · cases b with
      | none => simp [fetchSecondAttempt, hs]
      | some d =>
        have hec : extractCost d = none := by simpa [usableCost, hs] using h
        simp [fetchSecondAttempt, hs, hec]
    · simp [fetchSecondAttempt, hs]

theorem fetch_generation_cost_not_or (base_url : Str) (r1 r2 : FetchOutcome)
    (h : is_openrouter base_url = false) :
    fetch_generation_cost base_url r1 r2 = (none, []) := by
  simp [fetch_generation_cost, h]

theorem fetch_generation_cost_trace (base_url : Str) (r1 r2 : FetchOutcome) :
    (fetch_generation_cost base_url r1 r2).2 = []
    ∨ (fetch_generation_cost base_url r1 r2).2 = [Ev.req]
    ∨ (fetch_generation_cost base_url r1 r2).2 = [Ev.req, Ev.sleep 500, Ev.req] := by
  by_cases hor : is_openrouter base_url = true
  · cases r1 with
    | raised => exact Or.inr (Or.inl (by simp [fetch_generation_cost, hor]))
    | resp s b =>
      by_cases hs : s = 200
      · cases b with
        | none => exact Or.inr (Or.inl (by simp [fetch_generation_cost, hor, hs]))
        | some d =>
          cases hec : extractCost d with
          | none =>
            refine Or.inr (Or.inr ?_)
            simp only [fetch_generation_cost, hor, hs]
            simp [hec, fetchSecondAttempt_trace r2]
          | some c => exact Or.inr (Or.inl (by simp [fetch_generation_cost, hor, hs, hec]))
      · refine Or.inr (Or.inr ?_)
        simp [fetch_generation_cost, hor, hs, fetchSecondAttempt_trace r2]
  · have h : is_openrouter base_url = false := by
      cases hb : is_openrouter base_url
      · rfl
      · exact absurd hb hor
    exact Or.inl (by simp [fetch_generation_cost_not_or base_url r1 r2 h])

theorem fetch_generation_cost_second_only (base_url : Str) (r1 r2 : FetchOutcome)
    (h : (fetch_generation_cost base_url r1 r2).2 = [Ev.req, Ev.sleep 500, Ev.req]) :
    usableCost r1 = none := by
  by_cases hor : is_openrouter base_url = true
  · cases r1 with
    | raised => simp [fetch_generation_cost, hor] at h
    | resp s b =>
      by_cases hs : s = 200
      · cases b with
        | none => simp [fetch_generation_cost, hor, hs] at h
        | some d =>
          cases hec : extractCost d with
          | none => simp [usableCost, hs, hec]
          | some c => simp [fetch_generation_cost, hor, hs, hec] at h
      · simp [usableCost, hs]
  · have hf : is_openrouter base_url = false := by
      cases hb : is_openrouter base_url
      · rfl
      · exact absurd hb hor
    rw [fetch_generation_cost_not_or base_url r1 r2 hf] at h
    exact absurd h (by decide)

theorem fetch_generation_cost_both_fail (base_url : Str) (r1 r2 : FetchOutcome)
    (h1 : usableCost r1 = none) (h2 : usableCost r2 = none) :
    (fetch_generation_cost base_url r1 r2).1 = none := by
  by_cases hor : is_openrouter base_url = true
  · cases r1 with
    | raised => simp [fetch_generation_cost, hor]
    | resp s b =>
      by_cases hs : s = 200
      · cases b with
        | none => simp [fetch_generation_cost, hor, hs]
        | some d =>
          have hec : extractCost d = none := by simpa [usableCost, hs] using h1
          simp only [fetch_generation_cost, hor, hs]
          simp [hec, fetchSecondAttempt_fail r2 h2]
      · simp [fetch_generation_cost, hor, hs, fetchSecondAttempt_fail r2 h2]
  · have hf : is_openrouter base_url = false := by
      cases hb : is_openrouter base_url
      · rfl
      · exact absurd hb hor
    rw [fetch_generation_cost_not_or base_url r1 r2 hf]
/-- C2: cost reconciliation is bounded and silent — the event trace of
`_fetch_generation_cost` is empty, a single lookup, or two lookups
separated by exactly one 500ms sleep (hence at most two attempts); when
the route is not the aggregator no attempt is made and the result is
absent; a second attempt happens only when the first yielded no usable
cost; and when neither attempt yields a usable cost (raised, timed out,
non-200, malformed body, or no cost in the body) the result is absent.
Exceptions never escape: every outcome, including raised ones, maps to
a value of the total embedding. -/
theorem C2_reconciler_bounded (base_url : Str) (r1 r2 : FetchOutcome) :
    ((fetch_generation_cost base_url r1 r2).2 = []
      ∨ (fetch_generation_cost base_url r1 r2).2 = [Ev.req]
      ∨ (fetch_generation_cost base_url r1 r2).2 = [Ev.req, Ev.sleep 500, Ev.req])
    ∧ (is_openrouter base_url = false →
        fetch_generation_cost base_url r1 r2 = (none, []))
    ∧ ((fetch_generation_cost base_url r1 r2).2 = [Ev.req, Ev.sleep 500, Ev.req] →
        usableCost r1 = none)
    ∧ (usableCost r1 = none → usableCost r2 = none →
        (fetch_generation_cost base_url r1 r2).1 = none) :=
  ⟨fetch_generation_cost_trace base_url r1 r2,
   fun h => fetch_generation_cost_not_or base_url r1 r2 h,
   fun h => fetch_generation_cost_second_only base_url r1 r2 h,
   fun h1 h2 => fetch_generation_cost_both_fail base_url r1 r2 h1 h2⟩

/-! ### C4 — cache-control marker on the last tool only, copy-on-write -/

/-- C4: on the aggregator+Anthropic path with a non-empty tool list, the
payload's tool list has the same length as the input, agrees with the
input at every position except the last, and its last element is the
input's last tool with the ephemeral one-hour cache-control marker set
(its other content unchanged).  The embedding is pure: the payload list
is built as `dropLast ++ [copy of last]`, so the caller's list and its
elements are left intact (copy-on-write). -/
theorem C4_last_tool_cache_control (base_url model : Str) (ts : List Tool)
    (hor : is_openrouter base_url = true) (ham : is_anthropic_model model = true)
    (hne : ts ≠ []) :
    ∃ marked : List Tool,
      chatToolsPayload base_url model (some ts) = some marked
      ∧ marked.length = ts.length
      ∧ (∀ i : Nat, i + 1 < ts.length → marked[i]? = ts[i]?)
      ∧ marked.getLast?
          = some { ts.getLast hne with cache_control := some ephemeralMarker } := by
  refine ⟨tools_with_cache ts, ?_, ?_, ?_, ?_⟩
  · simp [chatToolsPayload, hne, hor, ham]
  · rw [tools_with_cache, dif_neg hne]
    have hpos : 0 < ts.length := List.length_pos.mpr hne
    simp [List.length_dropLast]
    omega
  · intro i hi
    rw [tools_with_cache, dif_neg hne]
    have hlt : i < ts.dropLast.length := by
      rw [List.length_dropLast]
      omega
    rw [List.getElem?_append, if_pos hlt]
    rw [List.dropLast_eq_take, List.getElem?_take_of_lt]
    omega
  · rw [tools_with_cache, dif_neg hne]
    exact List.getLast?_concat _

/-- Witness for C4 at a concrete input: two tools, aggregator route,
Anthropic model. -/
theorem C4_witness :
    ∃ marked : List Tool,
      chatToolsPayload OPENROUTER_URL "anthropic/claude".data
          (some [⟨"toolA".data, none⟩, ⟨"toolB".data, none⟩]) = some marked
      ∧ marked.length = ([⟨"toolA".data, none⟩, ⟨"toolB".data, none⟩] : List Tool).length
      ∧ (∀ i : Nat, i + 1 < ([⟨"toolA".data, none⟩, ⟨"toolB".data, none⟩] : List Tool).length →
          marked[i]? = ([⟨"toolA".data, none⟩, ⟨"toolB".data, none⟩] : List Tool)[i]?)
      ∧ marked.getLast?
          = some { (([⟨"toolA".data, none⟩, ⟨"toolB".data, none⟩] : List Tool).getLast
                      (by decide)) with
                   cache_control := some ephemeralMarker } :=
  C4_last_tool_cache_control OPENROUTER_URL "anthropic/claude".data
    [⟨"toolA".data, none⟩, ⟨"toolB".data, none⟩] (by decide) (by decide) (by decide)

/-! ### Normalization lemmas shared by C1 and C3 -/

theorem truthyInt_none : truthyInt none = false := rfl

theorem truthyInt_some (v : Int) : truthyInt (some v) = !decide (v = 0) := by
  simp [truthyInt]

theorem promoteCachedTokens_fields (u : Usage) :
    (promoteCachedTokens u).prompt_tokens = u.prompt_tokens
    ∧ (promoteCachedTokens u).completion_tokens = u.completion_tokens
    ∧ (promoteCachedTokens u).total_tokens = u.total_tokens
    ∧ (promoteCachedTokens u).cache_write_tokens = u.cache_write_tokens
    ∧ (promoteCachedTokens u).cost = u.cost
    ∧ (promoteCachedTokens u).prompt_tokens_details = u.prompt_tokens_details := by
  unfold promoteCachedTokens
  dsimp only
  split
  · exact ⟨rfl, rfl, rfl, rfl, rfl, rfl⟩
  · split <;> exact ⟨rfl, rfl, rfl, rfl, rfl, rfl⟩

theorem promoteCacheWriteTokens_fields (u : Usage) :
    (promoteCacheWriteTokens u).prompt_tokens = u.prompt_tokens
    ∧ (promoteCacheWriteTokens u).completion_tokens = u.completion_tokens
    ∧ (promoteCacheWriteTokens u).total_tokens = u.total_tokens
    ∧ (promoteCacheWriteTokens u).cached_tokens = u.cached_tokens
    ∧ (promoteCacheWriteTokens u).cost = u.cost
    ∧ (promoteCacheWriteTokens u).prompt_tokens_details = u.prompt_tokens_details := by
  unfold promoteCacheWriteTokens
  dsimp only
  split
  · exact ⟨rfl, rfl, rfl, rfl, rfl, rfl⟩
  · split <;> exact ⟨rfl, rfl, rfl, rfl, rfl, rfl⟩

theorem normalized_cost_eq (u : Usage) :
    (promoteCacheWriteTokens (promoteCachedTokens u)).cost = u.cost := by
  rw [(promoteCacheWriteTokens_fields (promoteCachedTokens u)).2.2.2.2.1,
    (promoteCachedTokens_fields u).2.2.2.2.1]

theorem chat_usage_fst_shape (base_url gen_id : Str) (r1 r2 : FetchOutcome)
    (raw : Option Usage) :
    (chat_usage base_url gen_id r1 r2 raw).1
      = promoteCacheWriteTokens (promoteCachedTokens (usageOrEmpty raw))
    ∨ ∃ c : Rat,
        (chat_usage base_url gen_id r1 r2 raw).1
          = { promoteCacheWriteTokens (promoteCachedTokens (usageOrEmpty raw)) with
              cost := some c } := by
  unfold chat_usage
  dsimp only
  split
  · split
    · cases hc : (fetch_generation_cost base_url r1 r2).1 with
      | some c => exact Or.inr ⟨c, rfl⟩
      | none => exact Or.inl rfl
    · exact Or.inl rfl
  · exact Or.inl rfl

/-! ### C1 — counters omitted by the provider -/

/-- The usage body containing only `total_tokens = 42`. -/
def u42 : Usage := ⟨none, none, some 42, none, none, none, none⟩

/-- C1 counterexample: for the response body containing only
`total_tokens = 42` (on a non-aggregator route), the normalized record
does NOT contain the other four counters with value 0 — they remain
absent (`none`), so the claim's "each present and defaulting to 0"
fails at this input. -/
theorem C1_counterexample :
    (chat_usage OPENAI_URL [] .raised .raised (some u42)).1.prompt_tokens = none
    ∧ (chat_usage OPENAI_URL [] .raised .raised (some u42)).1.completion_tokens = none
    ∧ (chat_usage OPENAI_URL [] .raised .raised (some u42)).1.cached_tokens = none
    ∧ (chat_usage OPENAI_URL [] .raised .raised (some u42)).1.cache_write_tokens = none
    ∧ (chat_usage OPENAI_URL [] .raised .raised (some u42)).1.cost = none
    ∧ (chat_usage OPENAI_URL [] .raised .raised (some u42)).1.total_tokens = some 42
    ∧ (chat_usage OPENAI_URL [] .raised .raised (some u42)).1.prompt_tokens ≠ some 0 := by
  decide

/-- C1 (amended): normalization returns the provider-reported
`prompt`/`completion`/`total` counters verbatim and leaves omitted
counters absent rather than materializing them as 0; absent counters
are read as 0 downstream — for the body containing only
`total_tokens = 42` the normalized record is unchanged, its cost is
absent, and accumulating it into a fresh total yields 0 for the four
omitted counters (and no cost). -/
theorem C1_normalization_amended (base_url gen_id : Str) (r1 r2 : FetchOutcome)
    (raw : Option Usage) :
    ((chat_usage base_url gen_id r1 r2 raw).1.prompt_tokens
        = (usageOrEmpty raw).prompt_tokens
      ∧ (chat_usage base_url gen_id r1 r2 raw).1.completion_tokens
        = (usageOrEmpty raw).completion_tokens
      ∧ (chat_usage base_url gen_id r1 r2 raw).1.total_tokens
        = (usageOrEmpty raw).total_tokens)
    ∧ ((chat_usage OPENAI_URL [] .raised .raised (some u42)).1 = u42
      ∧ add_usage emptyUsage (chat_usage OPENAI_URL [] .raised .raised (some u42)).1
        = ⟨some 0, some 0, some 42, some 0, some 0, none, none⟩) := by
  constructor
  · rcases chat_usage_fst_shape base_url gen_id r1 r2 raw with h | ⟨c, h⟩ <;> rw [h] <;>
      exact ⟨by rw [(promoteCacheWriteTokens_fields _).1, (promoteCachedTokens_fields _).1],
        by rw [(promoteCacheWriteTokens_fields _).2.1, (promoteCachedTokens_fields _).2.1],
        by rw [(promoteCacheWriteTokens_fields _).2.2.1,
          (promoteCachedTokens_fields _).2.2.1]⟩
  · exact ⟨by decide, by decide⟩

/-! ### C3 — reconciliation only fills a falsy cost -/

/-- C3 counterexample: a response that reports `cost = 0.0` on the
aggregator route still triggers the reconciliation lookup, and the
fetched value (7 here) overwrites the reported zero cost — so "invoked
only when the cost field is empty / a reported cost is never
overwritten" fails at this input. -/
theorem C3_counterexample :
    (chat_usage OPENROUTER_URL "g".data (.resp 200 (some ⟨some 7, none⟩)) .raised
        (some ⟨none, none, none, none, none, some 0, none⟩)).2 = true
    ∧ (chat_usage OPENROUTER_URL "g".data (.resp 200 (some ⟨some 7, none⟩)) .raised
        (some ⟨none, none, none, none, none, some 0, none⟩)).1.cost = some 7
    ∧ (⟨none, none, none, none, none, some 0, none⟩ : Usage).cost = some 0
    ∧ some (7 : Rat) ≠ some (0 : Rat) := by
  decide

/-- C3 (amended): the reconciliation lookup is invoked only when the
response's cost is absent **or zero** (Python falsiness), so a non-zero
provider-reported cost always skips the lookup and is returned
untouched. -/
theorem C3_fill_only_falsy_cost (base_url gen_id : Str) (r1 r2 : FetchOutcome)
    (raw : Option Usage) :
    ((chat_usage base_url gen_id r1 r2 raw).2 = true →
      (usageOrEmpty raw).cost = none ∨ (usageOrEmpty raw).cost = some 0)
    ∧ (∀ c : Rat, ¬ c = 0 → (usageOrEmpty raw).cost = some c →
        (chat_usage base_url gen_id r1 r2 raw).2 = false
        ∧ (chat_usage base_url gen_id r1 r2 raw).1.cost = some c) := by
  constructor
  · unfold chat_usage
    dsimp only
    split
    · intro hx
      rename_i hcond
      have hfalse : truthyRat (usageOrEmpty raw).cost = false := by
        rw [← normalized_cost_eq (usageOrEmpty raw)]
        cases hb : truthyRat
            (promoteCacheWriteTokens (promoteCachedTokens (usageOrEmpty raw))).cost
        · rfl
        · exact absurd hb hcond.1
      cases hc : (usageOrEmpty raw).cost with
      | none => exact Or.inl rfl
      | some v =>
        refine Or.inr ?_
        rw [hc] at hfalse
        simp [truthyRat] at hfalse
        rw [hfalse]
    · intro h
      exact absurd h (by simp)
  · intro c hc hcost
    have h2 : truthyRat
        (promoteCacheWriteTokens (promoteCachedTokens (usageOrEmpty raw))).cost = true := by
      rw [normalized_cost_eq (usageOrEmpty raw), hcost]
      simp [truthyRat, hc]
    unfold chat_usage
    dsimp only
    rw [if_neg (fun hcond => hcond.1 h2)]
    exact ⟨rfl, by rw [normalized_cost_eq (usageOrEmpty raw)]; exact hcost⟩

/-! ### C6 — cache-write promotion takes the first truthy value -/

/-- C6 counterexample: with no top-level `cache_write_tokens` and
details `cache_write_tokens = 0, cache_creation_tokens = 25`, the first
**present** value in priority order is 0, but normalization promotes 25
(the Python `or`-chain skips the present zero), so "the first present
value is promoted" fails at this input. -/
theorem C6_counterexample :
    (chat_usage OPENAI_URL [] .raised .raised
        (some ⟨none, none, none, none, none, none,
          some ⟨none, some 0, some 25, none⟩⟩)).1.cache_write_tokens = some 25
    ∧ (⟨none, some 0, some 25, none⟩ : PromptDetails).cache_write_tokens = some 0
    ∧ some (25 : Int) ≠ some (0 : Int) := by
  decide

/-- C6 (amended): when the top-level `cache_write_tokens` is falsy, the
detail structure is searched in the order `cache_write_tokens`,
`cache_creation_tokens`, `cache_creation_input_tokens`, and the first
present **non-zero** value is promoted; entries that are present but
zero are skipped, and when all three are absent or zero the top-level
field is left unchanged. -/
theorem C6_promotion_priority (u : Usage) (d : PromptDetails)
    (htop : truthyInt u.cache_write_tokens = false)
    (hd : u.prompt_tokens_details = some d) :
    (∀ v : Int, ¬ v = 0 → d.cache_write_tokens = some v →
      (promoteCacheWriteTokens u).cache_write_tokens = some v)
    ∧ (truthyInt d.cache_write_tokens = false → ∀ v : Int, ¬ v = 0 →
        d.cache_creation_tokens = some v →
        (promoteCacheWriteTokens u).cache_write_tokens = some v)
    ∧ (truthyInt d.cache_write_tokens = false →
        truthyInt d.cache_creation_tokens = false → ∀ v : Int, ¬ v = 0 →
        d.cache_creation_input_tokens = some v →
        (promoteCacheWriteTokens u).cache_write_tokens = some v)
    ∧ (truthyInt d.cache_write_tokens = false →
        truthyInt d.cache_creation_tokens = false →
        truthyInt d.cache_creation_input_tokens = false →
        (promoteCacheWriteTokens u).cache_write_tokens = u.cache_write_tokens) := by
  refine ⟨?_, ?_, ?_, ?_⟩
  · intro v hv h1
    simp [promoteCacheWriteTokens, htop, hd, detailsOrEmpty, pyOrInt, truthyInt_some,
      h1, hv]
  · intro hw v hv h1
    simp [promoteCacheWriteTokens, htop, hd, detailsOrEmpty, pyOrInt, truthyInt_some,
      hw, h1, hv]
  · intro hw hct v hv h1
    simp [promoteCacheWriteTokens, htop, hd, detailsOrEmpty, pyOrInt, truthyInt_some,
      hw, hct, h1, hv]
  · intro hw hct hci
    simp [promoteCacheWriteTokens, htop, hd, detailsOrEmpty, pyOrInt, hw, hct, hci]

/-- Witness for C6 at a concrete input: no top-level counter, details
`cache_write_tokens` absent, `cache_creation_tokens = 2`,
`cache_creation_input_tokens = 4`. -/
theorem C6_witness :
    (∀ v : Int, ¬ v = 0 →
      (⟨none, none, some 2, some 4⟩ : PromptDetails).cache_write_tokens = some v →
      (promoteCacheWriteTokens
        ⟨none, none, none, none, none, none,
          some ⟨none, none, some 2, some 4⟩⟩).cache_write_tokens = some v)
    ∧ (truthyInt (⟨none, none, some 2, some 4⟩ : PromptDetails).cache_write_tokens = false →
        ∀ v : Int, ¬ v = 0 →
        (⟨none, none, some 2, some 4⟩ : PromptDetails).cache_creation_tokens = some v →
        (promoteCacheWriteTokens
          ⟨none, none, none, none, none, none,
            some ⟨none, none, some 2, some 4⟩⟩).cache_write_tokens = some v)
    ∧ (truthyInt (⟨none, none, some 2, some 4⟩ : PromptDetails).cache_write_tokens = false →
        truthyInt (⟨none, none, some 2, some 4⟩ : PromptDetails).cache_creation_tokens
          = false →
        ∀ v : Int, ¬ v = 0 →
        (⟨none, none, some 2, some 4⟩ : PromptDetails).cache_creation_input_tokens = some v →
        (promoteCacheWriteTokens
          ⟨none, none, none, none, none, none,
            some ⟨none, none, some 2, some 4⟩⟩).cache_write_tokens = some v)
    ∧ (truthyInt (⟨none, none, some 2, some 4⟩ : PromptDetails).cache_write_tokens = false →
        truthyInt (⟨none, none, some 2, some 4⟩ : PromptDetails).cache_creation_tokens
          = false →
        truthyInt (⟨none, none, some 2, some 4⟩ : PromptDetails).cache_creation_input_tokens
          = false →
        (promoteCacheWriteTokens
          ⟨none, none, none, none, none, none,
            some ⟨none, none, some 2, some 4⟩⟩).cache_write_tokens
          = (⟨none, none, none, none, none, none,
              some ⟨none, none, some 2, some 4⟩⟩ : Usage).cache_write_tokens) :=
  C6_promotion_priority
    ⟨none, none, none, none, none, none, some ⟨none, none, some 2, some 4⟩⟩
    ⟨none, none, some 2, some 4⟩ rfl rfl

/-! ### C9 — pricing catalog fetch -/

theorem pricingStep_skip_rejected (acc : List (Str × (Rat × Rat × Rat)))
    (m : RawModel) (i : Str)
    (h : m.id = i → ∃ p, m.pricing = some p
      ∧ (derivedPromptPrice p > 1000 ∨ derivedCompletionPrice p > 1000))
    (hacc : i ∉ acc.map Prod.fst) :
    i ∉ (pricingStep acc m).map Prod.fst := by
  unfold pricingStep
  by_cases hns : startsWithAny m.id pricedNamespaces = true
  · rw [if_neg (not_not_intro hns)]
    cases hp : m.pricing with
    | none => exact hacc
    | some pricing =>
      dsimp only
      by_cases hpp : truthyRat pricing.prompt = true
      · rw [if_neg (not_not_intro hpp)]
        by_cases hgt : derivedPromptPrice pricing > 1000 ∨ derivedCompletionPrice pricing > 1000
        · rw [if_pos hgt]
          exact hacc
        · rw [if_neg hgt]
          intro hmem
          rcases (mem_keys_pyDictInsert acc m.id
              (derivedPromptPrice pricing, derivedCachedPrice pricing,
                derivedCompletionPrice pricing) i).mp hmem with hik | hia
          · rcases h hik.symm with ⟨p, hp2, hgt2⟩
            rw [hp] at hp2
            cases Option.some.inj hp2
            exact hgt hgt2
          · exact hacc hia
      · rw [if_pos hpp]
        exact hacc
  · rw [if_pos hns]
    exact hacc

theorem rejected_not_in_pricing (models : List RawModel) (i : Str)
    (h : ∀ m ∈ models, m.id = i → ∃ p, m.pricing = some p
      ∧ (derivedPromptPrice p > 1000 ∨ derivedCompletionPrice p > 1000)) :
    ∀ acc : List (Str × (Rat × Rat × Rat)), i ∉ acc.map Prod.fst →
      i ∉ (models.foldl pricingStep acc).map Prod.fst := by
  induction models with
  | nil =>
    intro acc hacc
    simpa using hacc
  | cons m ms ih =>
    intro acc hacc
    rw [List.foldl_cons]
    exact ih (fun m' hm' => h m' (List.mem_cons_of_mem m hm')) _
      (pricingStep_skip_rejected acc m i (h m (List.mem_cons_self m ms)) hacc)

/-- C9: the pricing fetch returns the empty mapping whenever the HTTP
request or JSON parse fails (the exception is swallowed) or the
aggregator credential is unset; every catalog entry whose derived
per-million prompt or completion price exceeds 1000 is rejected (its id
never appears in the result); raw per-token prices are converted by
multiplying by 1,000,000 and rounding to 4 decimal places (the prompt
price 0.00000123456 becomes 1.2346 per million); and an entry without
`input_cache_read` gets a cached price of 10% of the prompt price —
raw prompt 0.000003 yields the triple (3, 0.3, completion). -/
theorem C9_pricing_fetch (api_key : Str) (requestsOk : Bool) (models : List RawModel)
    (i : Str) :
    fetch_openrouter_pricing api_key requestsOk (.error ()) = []
    ∧ fetch_openrouter_pricing [] requestsOk (.ok models) = []
    ∧ ((∀ m ∈ models, m.id = i → ∃ p, m.pricing = some p
          ∧ (derivedPromptPrice p > 1000 ∨ derivedCompletionPrice p > 1000)) →
        i ∉ (fetch_openrouter_pricing api_key requestsOk (.ok models)).map Prod.fst)
    ∧ fetch_openrouter_pricing "k".data true
        (.ok [⟨"openai/m".data, some ⟨some (3 / 1000000), some (1 / 100000), none⟩⟩])
      = [("openai/m".data, (3, 3 / 10, 10))]
    ∧ pyRound4 ((123456 / 100000000000 : Rat) * 1000000) = 12346 / 10000 := by
  refine ⟨?_, ?_, ?_, ?_, ?_⟩
  · unfold fetch_openrouter_pricing
    split
    · rfl
    · split
      · rfl
      · rfl
  · rfl
  · intro h
    unfold fetch_openrouter_pricing
    split
    · simp
    · split
      · simp
      · exact rejected_not_in_pricing models i h [] (by simp)
  · have hprompt : truthyRat (some ((3 : Rat) / 1000000)) = true := by
      simp only [truthyRat]
      norm_num
    have hpp : derivedPromptPrice ⟨some (3 / 1000000), some (1 / 100000), none⟩ = 3 := by
      unfold derivedPromptPrice pyRound4 roundHalfEven
      norm_num [orZeroRat]
    have hcc : derivedCompletionPrice ⟨some (3 / 1000000), some (1 / 100000), none⟩
        = 10 := by
      unfold derivedCompletionPrice pyRound4 roundHalfEven
      norm_num [orZeroRat]
    have hca : derivedCachedPrice ⟨some (3 / 1000000), some (1 / 100000), none⟩
        = 3 / 10 := by
      unfold derivedCachedPrice
      rw [if_neg (by decide)]
      rw [hpp]
      unfold pyRound4 roundHalfEven
      norm_num
    unfold fetch_openrouter_pricing
    rw [if_neg (by decide), if_neg (by simp)]
    show List.foldl pricingStep []
        [⟨"openai/m".data, some ⟨some (3 / 1000000), some (1 / 100000), none⟩⟩]
      = [("openai/m".data, (3, 3 / 10, 10))]
    rw [List.foldl_cons, List.foldl_nil]
    unfold pricingStep
    rw [if_neg (not_not_intro
      (by decide : startsWithAny "openai/m".data pricedNamespaces = true))]
    dsimp only
    rw [if_neg (not_not_intro hprompt)]
    rw [hpp, hcc, hca]
    rw [if_neg (by norm_num)]
    rfl
  · unfold pyRound4 roundHalfEven
    norm_num
